import Mathlib

/-!
Verification of the `lsst::pex::logging` formatting layer
(`LogFormatter.h`: `BriefFormatter`, `IndentedFormatter`,
`NetLoggerFormatter`, `PrependedFormatter`) and the `ScreenLog` sink.

The headers are the authority for the class data members, the
copy-construction behaviour, and the inline delegating accessors.
The bodies of the `write` member functions, `loadTypeLookup`, and the
`LogDestination` collaborator are not part of the available sources;
those are modelled from the specification's rendering rules, and each
such definition is marked `Modelled from the spec:` in its doc comment.

Output streams are modelled as their accumulated text (a `String`);
a null `std::ostream*` is `Option.none`.  Machine integers carried by
properties are modelled as `Int`.
-/

namespace PexLogging

/-- a typed property value as stored in a record's property set.
Strings, integers and booleans cover the value types the formatting
claims exercise. -/
inductive PropValue where
  | vString : String → PropValue
  | vInt    : Int → PropValue
  | vBool   : Bool → PropValue
  deriving DecidableEq, Repr

/-- runtime type name of a property value, the key used by the
NetLogger type-symbol table. -/
def PropValue.typeName : PropValue → String
  | .vString _ => "string"
  | .vInt _    => "int"
  | .vBool _   => "bool"

/-- Modelled from the spec: stringification of property values
("numbers via standard decimal text; booleans as literal true/false
tokens"); the `write` bodies that apply it are not in the sources. -/
def PropValue.render : PropValue → String
  | .vString s => s
  | .vInt n    => toString n
  | .vBool b   => cond b "true" "false"

/-- a LogRecord as seen by a formatter: an ordered multimap of
properties, a verbosity level, and the willShowAll flag. -/
structure LogRecord where
  props   : List (String × PropValue)
  level   : Int
  showAll : Bool
  deriving DecidableEq, Repr

/-- the willShowAll accessor of LogRecord. -/
def LogRecord.willShowAll (r : LogRecord) : Bool := r.showAll

/-- last value recorded under a key, or none; the header documents
that when a standard name has several values only the last is valid. -/
def lastValue (props : List (String × PropValue)) (key : String) :
    Option PropValue :=
  ((props.filter (fun p => p.1 == key)).map Prod.snd).getLast?

/-- the rendered LOG value of a record, empty when LOG is absent
(a missing mandatory field is tolerated by printing an empty value). -/
def logValueOf (r : LogRecord) : String :=
  match lastValue r.props "LOG" with
  | some v => v.render
  | none   => ""

/-- the rendered LABEL value of a record, empty when LABEL is absent. -/
def labelOf (r : LogRecord) : String :=
  match lastValue r.props "LABEL" with
  | some v => v.render
  | none   => ""

/-- every COMMENT value of a record, rendered, in insertion order. -/
def commentsOf (r : LogRecord) : List String :=
  (r.props.filter (fun p => p.1 == "COMMENT")).map (fun p => p.2.render)

/-- one structured output line of a brief-family formatter: the log
name line, a comment continuation line, or a `key: value` data line. -/
inductive LineItem where
  | logLine     : String → LineItem
  | commentLine : String → LineItem
  | kvLine      : String → String → LineItem
  deriving DecidableEq, Repr

/-- the fixed separator prefixed to each COMMENT continuation line. -/
def commentSep : String := "  "

/-- physical text of one structured line. -/
def LineItem.toText : LineItem → String
  | .logLine s     => s
  | .commentLine s => commentSep ++ s
  | .kvLine k v    => k ++ ": " ++ v

/-- the comment text carried by a line item, when it is a comment line. -/
def LineItem.commentText : LineItem → Option String
  | .commentLine s => some s
  | _ => none

/-- the `key: value` data lines of a record: every property other than
LOG and COMMENT, in the property set's insertion order. -/
def kvItems (r : LogRecord) : List LineItem :=
  (r.props.filter (fun p => p.1 != "LOG" && p.1 != "COMMENT")).map
    (fun p => LineItem.kvLine p.1 p.2.render)

/-- Modelled from the spec: the rendering rule of `BriefFormatter::write`
(whose body is not in the sources).  Non-verbose: the LOG value then each
COMMENT occurrence in order; verbose: additionally every other property
as a `key: value` line in insertion order. -/
def briefItems (verbose : Bool) (r : LogRecord) : List LineItem :=
  LineItem.logLine (logValueOf r) ::
    (commentsOf r).map LineItem.commentLine ++
      (if verbose then kvItems r else [])

/-- joins output lines, each terminated by a newline. -/
def renderLines (ls : List String) : String :=
  ls.foldr (fun l acc => l ++ "\n" ++ acc) ""

/-- the BriefFormatter class: its one data member is `_doAll`. -/
structure BriefFormatter where
  _doAll : Bool
  deriving DecidableEq, Repr

/-- the `isVerbose` accessor, inline in the header. -/
def BriefFormatter.isVerbose (f : BriefFormatter) : Bool := f._doAll

/-- the `setVerbose` mutator, inline in the header. -/
def BriefFormatter.setVerbose (f : BriefFormatter) (printAll : Bool) :
    BriefFormatter :=
  { f with _doAll := printAll }

/-- structured lines produced by `BriefFormatter::write` for a record:
the record's willShowAll overrides the configured verbose flag. -/
def BriefFormatter.writeItems (f : BriefFormatter) (r : LogRecord) :
    List LineItem :=
  briefItems (f._doAll || r.showAll) r

/-- full rendered text of `BriefFormatter::write` for one record. -/
def BriefFormatter.renderText (f : BriefFormatter) (r : LogRecord) :
    String :=
  renderLines ((f.writeItems r).map LineItem.toText)

/-- appends rendered text to a stream; a null stream pointer means
nothing is written (the base-class contract in the header). -/
def writeTo (text : String) (strm : Option String) : Option String :=
  match strm with
  | none => none
  | some s => some (s ++ text)

/-- the `write` member of BriefFormatter: returns the (unchanged)
formatter and the stream after the call. -/
def BriefFormatter.write (f : BriefFormatter) (strm : Option String)
    (r : LogRecord) : BriefFormatter × Option String :=
  (f, writeTo (f.renderText r) strm)

/-- the IndentedFormatter class: a BriefFormatter subclass with no
data members of its own. -/
structure IndentedFormatter extends BriefFormatter
  deriving DecidableEq, Repr

/-- Modelled from the spec: the fixed-width indent unit used by
`IndentedFormatter::write` (whose body is not in the sources). -/
def indentUnit : Nat := 2

/-- the indentation depth of a record: its verbosity level clamped
to be non-negative. -/
def indentDepth (r : LogRecord) : Nat := (max r.level 0).toNat

/-- the run of indentation whitespace prefixed to each line:
depth times the fixed-width indent unit. -/
def indentText (r : LogRecord) : String :=
  String.mk (List.replicate (indentUnit * indentDepth r) ' ')

/-- Modelled from the spec: output lines of `IndentedFormatter::write`
(body not in the sources): same decision rules as Brief, with every
emitted line prefixed by indentation proportional to the record's
clamped verbosity level. -/
def IndentedFormatter.renderLinesOf (f : IndentedFormatter)
    (r : LogRecord) : List String :=
  ((f.toBriefFormatter.writeItems r).map LineItem.toText).map
    (fun l => indentText r ++ l)

/-- full rendered text of `IndentedFormatter::write` for one record. -/
def IndentedFormatter.renderText (f : IndentedFormatter)
    (r : LogRecord) : String :=
  renderLines (f.renderLinesOf r)

/-- the `write` member of IndentedFormatter. -/
def IndentedFormatter.write (f : IndentedFormatter)
    (strm : Option String) (r : LogRecord) :
    IndentedFormatter × Option String :=
  (f, writeTo (f.renderText r) strm)

/-- the PrependedFormatter class: a BriefFormatter subclass with no
data members of its own. -/
structure PrependedFormatter extends BriefFormatter
  deriving DecidableEq, Repr

/-- Modelled from the spec: rendered text of `PrependedFormatter::write`
(body not in the sources): the record's LABEL value (empty when absent)
as a delimiter-separated preamble token, then the Brief content. -/
def PrependedFormatter.renderText (f : PrependedFormatter)
    (r : LogRecord) : String :=
  labelOf r ++ " " ++ f.toBriefFormatter.renderText r

/-- the `write` member of PrependedFormatter. -/
def PrependedFormatter.write (f : PrependedFormatter)
    (strm : Option String) (r : LogRecord) :
    PrependedFormatter × Option String :=
  (f, writeTo (f.renderText r) strm)

/-- Modelled from the spec: the fixed type-symbol table built by
`NetLoggerFormatter::loadTypeLookup` (body not in the sources):
integer maps to tag i, floating point to tag f, strings carry no tag. -/
def loadTypeLookup : List (String × Char) :=
  [("int", 'i'), ("float", 'f')]

/-- the NetLoggerFormatter class: its data members are the
type-symbol table `_tplookup` and the value delimiter `_midfix`. -/
structure NetLoggerFormatter where
  _tplookup : List (String × Char)
  _midfix   : String
  deriving DecidableEq, Repr

/-- the default value delimiter, `defaultValDelim`. -/
def defaultValDelim : String := ":"

/-- the NetLoggerFormatter constructor: stores the delimiter and
builds the type-symbol table with loadTypeLookup. -/
def NetLoggerFormatter.make (valueDelim : String := defaultValDelim) :
    NetLoggerFormatter :=
  { _tplookup := loadTypeLookup, _midfix := valueDelim }

/-- the NetLoggerFormatter copy constructor, inline in the header:
it starts from an empty table and calls loadTypeLookup rather than
copying the original's table, and copies `_midfix`. -/
def NetLoggerFormatter.copy (that : NetLoggerFormatter) :
    NetLoggerFormatter :=
  { _tplookup := loadTypeLookup, _midfix := that._midfix }

/-- the `getValueDelimiter` accessor, inline in the header. -/
def NetLoggerFormatter.getValueDelimiter (f : NetLoggerFormatter) :
    String :=
  f._midfix

/-- one NetLogger token for one property: the key, then (when the
value's type has a tag in the table) the delimiter and the tag, then
the delimiter and the rendered value. -/
def netToken (f : NetLoggerFormatter) (p : String × PropValue) :
    String :=
  match f._tplookup.lookup p.2.typeName with
  | some c => p.1 ++ f._midfix ++ String.mk [c] ++ f._midfix ++ p.2.render
  | none   => p.1 ++ f._midfix ++ p.2.render

/-- space-joins the tokens of a property list, one token per property,
in insertion order. -/
def netTokensText (f : NetLoggerFormatter) :
    List (String × PropValue) → String
  | []          => ""
  | [p]         => netToken f p
  | p :: q :: r => netToken f p ++ " " ++ netTokensText f (q :: r)

/-- Modelled from the spec: rendered text of `NetLoggerFormatter::write`
(body not in the sources): every property as one token, space-separated
on a single newline-terminated line. -/
def NetLoggerFormatter.renderText (f : NetLoggerFormatter)
    (r : LogRecord) : String :=
  netTokensText f r.props ++ "\n"

/-- the `write` member of NetLoggerFormatter. -/
def NetLoggerFormatter.write (f : NetLoggerFormatter)
    (strm : Option String) (r : LogRecord) :
    NetLoggerFormatter × Option String :=
  (f, writeTo (f.renderText r) strm)

/-- Modelled from the spec: the LogDestination collaborator (declared
in the missing Log.h): it pairs a writable stream with a numeric
verbosity threshold. -/
structure LogDestination where
  _threshold : Int
  deriving DecidableEq, Repr

/-- the getThreshold accessor of LogDestination. -/
def LogDestination.getThreshold (d : LogDestination) : Int :=
  d._threshold

/-- the setThreshold mutator of LogDestination. -/
def LogDestination.setThreshold (d : LogDestination) (t : Int) :
    LogDestination :=
  { d with _threshold := t }

/-- a store of heap-allocated objects, addressed by natural numbers,
modelling the raw `LogDestination*` and `BriefFormatter*` members of
ScreenLog: two ScreenLog objects holding equal addresses alias the
same underlying object. -/
structure Heap where
  frmtrs : Nat → BriefFormatter
  dests  : Nat → LogDestination

/-- the ScreenLog class: its data members are the raw pointers
`_screen` (a LogDestination) and `_screenFrmtr` (a BriefFormatter),
modelled as heap addresses. -/
structure ScreenLog where
  _screen      : Nat
  _screenFrmtr : Nat
  deriving DecidableEq, Repr

/-- the ScreenLog copy constructor, inline in the header: it copies
the raw `_screen` and `_screenFrmtr` pointers, not the objects they
point to. -/
def ScreenLog.copy (that : ScreenLog) : ScreenLog :=
  { _screen := that._screen, _screenFrmtr := that._screenFrmtr }

/-- the `getScreenThreshold` accessor, inline in the header:
`_screen->getThreshold()`. -/
def ScreenLog.getScreenThreshold (s : ScreenLog) (h : Heap) : Int :=
  (h.dests s._screen).getThreshold

/-- the `setScreenThreshold` mutator, inline in the header:
`_screen->setThreshold(thresh)`. -/
def ScreenLog.setScreenThreshold (s : ScreenLog) (thresh : Int)
    (h : Heap) : Heap :=
  { h with dests := (Function.update h.dests s._screen
      ((h.dests s._screen).setThreshold thresh)) }

/-- the `setScreenVerbose` mutator, inline in the header:
`_screenFrmtr->setVerbose(printAll)`. -/
def ScreenLog.setScreenVerbose (s : ScreenLog) (printAll : Bool)
    (h : Heap) : Heap :=
  { h with frmtrs := (Function.update h.frmtrs s._screenFrmtr
      ((h.frmtrs s._screenFrmtr).setVerbose printAll)) }

/-- the `isScreenVerbose` accessor, inline in the header:
`_screenFrmtr->isVerbose()`. -/
def ScreenLog.isScreenVerbose (s : ScreenLog) (h : Heap) : Bool :=
  (h.frmtrs s._screenFrmtr).isVerbose

/-- the sink's formatter as seen through the `_screenFrmtr` pointer. -/
def ScreenLog.screenFormatter (s : ScreenLog) (h : Heap) :
    BriefFormatter :=
  h.frmtrs s._screenFrmtr

/-- number of leading space characters of a character list. -/
def leadingSpacesL : List Char → Nat
  | [] => 0
  | c :: cs => if c = ' ' then leadingSpacesL cs + 1 else 0

/-- number of leading space characters of an output line. -/
def leadingSpaces (s : String) : Nat := leadingSpacesL s.data

/-- a concrete record used to instantiate the universally quantified
theorems: a LOG name, two comments and a PID. -/
def wrecB : LogRecord :=
  ⟨[("LOG", .vString "app.sub"), ("COMMENT", .vString "hello"),
    ("PID", .vInt 7), ("COMMENT", .vString "bye")], 0, false⟩

/-- the record of the NetLogger round-trip example:
properties LOG = x and PID = 42. -/
def netExample : LogRecord :=
  ⟨[("LOG", .vString "x"), ("PID", .vInt 42)], 0, false⟩

/-- the same record as wrecB, with willShowAll set. -/
def wrecA : LogRecord := { wrecB with showAll := true }

/-- a concrete record carrying LABEL = worker-2. -/
def wrecL : LogRecord :=
  { wrecB with props := ("LABEL", .vString "worker-2") :: wrecB.props }

/-- a concrete heap for the ScreenLog theorems. -/
def wheap : Heap := ⟨fun _ => ⟨false⟩, fun _ => ⟨0⟩⟩

/-- a concrete ScreenLog for the sink theorems. -/
def wsink : ScreenLog := ⟨0, 0⟩

/-! ### Helper lemmas -/

/-- the accumulator of `String.intercalate.go` factors out as a
string-append prefix. -/
theorem intercalate_go_factor (s : String) :
    ∀ (as : List String) (acc : String),
      String.intercalate.go acc s as = acc ++ String.intercalate.go "" s as
  | [], acc => by
      simp [String.intercalate.go]
  | a :: as, acc => by
      rw [String.intercalate.go, String.intercalate.go,
        intercalate_go_factor s as (acc ++ s ++ a),
        intercalate_go_factor s as ("" ++ s ++ a)]
      simp [String.append_assoc]

/-- intercalation over at least two strings peels off the head and one
separator. -/
theorem intercalate_cons_cons (s a b : String) (bs : List String) :
    String.intercalate s (a :: b :: bs) =
      a ++ s ++ String.intercalate s (b :: bs) := by
  show String.intercalate.go a s (b :: bs) = _
  rw [String.intercalate.go, intercalate_go_factor s bs (a ++ s ++ b)]
  show _ = a ++ s ++ String.intercalate.go b s bs
  rw [intercalate_go_factor s bs b]
  simp [String.append_assoc]

/-- the token loop of the NetLogger renderer produces exactly the
space-intercalation of the per-property tokens. -/
theorem netTokensText_eq_intercalate (f : NetLoggerFormatter) :
    ∀ ps : List (String × PropValue),
      netTokensText f ps = String.intercalate " " (ps.map (netToken f))
  | [] => rfl
  | [p] => rfl
  | p :: q :: r => by
      rw [netTokensText, netTokensText_eq_intercalate f (q :: r)]
      show _ = String.intercalate " "
        (netToken f p :: netToken f q :: List.map (netToken f) r)
      rw [intercalate_cons_cons]
      rfl

/-- leading spaces of a replicated-space prefix add up. -/
theorem leadingSpacesL_replicate (n : Nat) (l : List Char) :
    leadingSpacesL (List.replicate n ' ' ++ l) = n + leadingSpacesL l := by
  induction n with
  | zero => simp
  | succ m ih =>
      rw [List.replicate_succ, List.cons_append]
      simp [leadingSpacesL, ih]
      omega

/-- leading spaces of an indentation-prefixed line are the indentation
width plus the line's own leading spaces. -/
theorem leadingSpaces_indent_shift (n : Nat) (s : String) :
    leadingSpaces (String.mk (List.replicate n ' ') ++ s) =
      n + leadingSpaces s := by
  show leadingSpacesL ((String.mk (List.replicate n ' ') ++ s).data) = _
  rw [String.data_append]
  exact leadingSpacesL_replicate n s.data

/-- brief-family structured output does not depend on the record's
verbosity level. -/
theorem writeItems_set_level (f : BriefFormatter) (r : LogRecord)
    (lv : Int) :
    f.writeItems { r with level := lv } = f.writeItems r := rfl

/-! ### Claim theorems -/

/-- Claim C1: for every record with showAll false written by a
BriefFormatter constructed with verbose false, the output contains the
record's LOG value and every COMMENT value in insertion order, and no
property appears as a standalone `key: value` line. -/
theorem brief_nonverbose_output (f : BriefFormatter) (r : LogRecord)
    (hv : f._doAll = false) (hs : r.showAll = false) :
    LineItem.logLine (logValueOf r) ∈ f.writeItems r ∧
    (f.writeItems r).filterMap LineItem.commentText = commentsOf r ∧
    ∀ k v, LineItem.kvLine k v ∉ f.writeItems r := by
  have h0 : f.writeItems r =
      LineItem.logLine (logValueOf r) ::
        (commentsOf r).map LineItem.commentLine := by
    unfold BriefFormatter.writeItems briefItems
    rw [hv, hs]
    simp
  rw [h0]
  refine ⟨List.mem_cons_self _ _, ?_, ?_⟩
  · rw [List.filterMap_cons_none rfl, List.filterMap_map]
    rw [show LineItem.commentText ∘ LineItem.commentLine = some from rfl]
    exact List.filterMap_some _
  · intro k v
    simp [LineItem.commentText]

/-- Claim C1 witness: the non-verbose output of a concrete record with
a PID property shows its LOG value, keeps its comments, and carries no
`PID: 7` data line. -/
theorem brief_nonverbose_output_instance :
    (BriefFormatter.mk false)._doAll = false ∧ wrecB.showAll = false ∧
    LineItem.logLine (logValueOf wrecB) ∈
      (BriefFormatter.mk false).writeItems wrecB ∧
    ((BriefFormatter.mk false).writeItems wrecB).filterMap
      LineItem.commentText = commentsOf wrecB ∧
    LineItem.kvLine "PID" "7" ∉
      (BriefFormatter.mk false).writeItems wrecB :=
  ⟨rfl, rfl,
    (brief_nonverbose_output (BriefFormatter.mk false) wrecB rfl rfl).1,
    (brief_nonverbose_output (BriefFormatter.mk false) wrecB rfl rfl).2.1,
    (brief_nonverbose_output (BriefFormatter.mk false) wrecB rfl
      rfl).2.2 "PID" "7"⟩

/-- Claim C2: for every record with showAll true, a Brief-family write
emits a `key: value` line for every property other than LOG and
COMMENT whatever the configured verbose flag is, the effective
verbosity being the disjunction of the flag and showAll. -/
theorem brief_showAll_override (f : BriefFormatter) (r : LogRecord)
    (hs : r.showAll = true) :
    f.writeItems r = briefItems (f._doAll || r.showAll) r ∧
    ∀ k v, (k, v) ∈ r.props → k ≠ "LOG" → k ≠ "COMMENT" →
      LineItem.kvLine k v.render ∈ f.writeItems r := by
  refine ⟨rfl, ?_⟩
  intro k v hmem hL hC
  unfold BriefFormatter.writeItems
  rw [hs]
  simp only [Bool.or_true, briefItems, if_true]
  apply List.mem_cons_of_mem
  apply List.mem_append_right
  exact List.mem_map_of_mem _
    (List.mem_filter.mpr ⟨hmem, by simp [hL, hC]⟩)

/-- Claim C2 witness: a concrete record with showAll set, written by a
formatter configured non-verbose, still shows its PID data line. -/
theorem brief_showAll_override_instance :
    wrecA.showAll = true ∧
    LineItem.kvLine "PID" ((PropValue.vInt 7).render) ∈
      (BriefFormatter.mk false).writeItems wrecA :=
  ⟨rfl,
    (brief_showAll_override (BriefFormatter.mk false) wrecA rfl).2
      "PID" (.vInt 7) (by decide) (by decide) (by decide)⟩

/-- Claim C3: for every formatter variant and every record, write with
a null stream pointer writes nothing, leaves the formatter unchanged,
and returns normally. -/
theorem write_null_stream_noop (fb : BriefFormatter)
    (fi : IndentedFormatter) (fn : NetLoggerFormatter)
    (fp : PrependedFormatter) (r : LogRecord) :
    fb.write none r = (fb, none) ∧ fi.write none r = (fi, none) ∧
    fn.write none r = (fn, none) ∧ fp.write none r = (fp, none) :=
  ⟨rfl, rfl, rfl, rfl⟩

/-- Claim C4: NetLoggerFormatter writes every property as one token,
space-separated on a single newline-terminated line; concretely, a
record with LOG = x and PID = 42 under delimiter `:` renders to
exactly `LOG:x PID:i:42` followed by a newline. -/
theorem netlogger_single_line_tokens (f : NetLoggerFormatter)
    (r : LogRecord) :
    f.renderText r =
      String.intercalate " " (r.props.map (netToken f)) ++ "\n" ∧
    (NetLoggerFormatter.make ":").renderText netExample =
      "LOG:x PID:i:42\n" := by
  constructor
  · unfold NetLoggerFormatter.renderText
    rw [netTokensText_eq_intercalate]
  · rfl

/-- Claim C5: the NetLoggerFormatter copy constructor rebuilds the
type-symbol table with loadTypeLookup rather than copying it, keeps
the value delimiter, and the copy writes the same output as the
original. -/
theorem netlogger_copy_rebuilds_table (f : NetLoggerFormatter) :
    f.copy._tplookup = loadTypeLookup ∧
    f.copy._midfix = f._midfix ∧
    (f._tplookup = loadTypeLookup →
      ∀ strm r, (f.copy.write strm r).2 = (f.write strm r).2) := by
  refine ⟨rfl, rfl, ?_⟩
  intro htab strm r
  have hcopy : f.copy = f := by
    cases f
    simp [NetLoggerFormatter.copy] at htab ⊢
    exact htab.symm
  rw [hcopy]

/-- Claim C5 witness: copying a default-constructed NetLoggerFormatter
yields the loadTypeLookup table and identical write output on the
concrete example record. -/
theorem netlogger_copy_rebuilds_table_instance :
    (NetLoggerFormatter.make defaultValDelim)._tplookup =
      loadTypeLookup ∧
    ((NetLoggerFormatter.make defaultValDelim).copy.write (some "")
        netExample).2 =
      ((NetLoggerFormatter.make defaultValDelim).write (some "")
        netExample).2 :=
  ⟨rfl,
    (netlogger_copy_rebuilds_table
      (NetLoggerFormatter.make defaultValDelim)).2.2 rfl
      (some "") netExample⟩

/-- Claim C6: for two records identical but for verbosity level 0
versus 3, every line the IndentedFormatter emits for the level-3
record carries strictly more leading indentation whitespace than the
corresponding line for the level-0 record. -/
theorem indented_deeper_for_higher_level (f : IndentedFormatter)
    (r : LogRecord) (h : r.level = 0) :
    List.Forall₂ (fun a b => leadingSpaces a < leadingSpaces b)
      (f.renderLinesOf r) (f.renderLinesOf { r with level := 3 }) := by
  have key : ∀ x, leadingSpaces (indentText r ++ x) <
      leadingSpaces (indentText { r with level := 3 } ++ x) := by
    intro x
    unfold indentText
    rw [leadingSpaces_indent_shift, leadingSpaces_indent_shift]
    have h0 : indentDepth r = 0 := by simp [indentDepth, h]
    have h3 : indentDepth { r with level := 3 } = 3 := rfl
    rw [h0, h3]
    simp [indentUnit]
  show List.Forall₂ _
    (((f.toBriefFormatter.writeItems r).map LineItem.toText).map
      (fun l => indentText r ++ l))
    (((f.toBriefFormatter.writeItems r).map LineItem.toText).map
      (fun l => indentText { r with level := 3 } ++ l))
  generalize (f.toBriefFormatter.writeItems r).map LineItem.toText = L
  induction L with
  | nil => exact List.Forall₂.nil
  | cons a L ih => exact List.Forall₂.cons (key a) ih

/-- Claim C6 witness: on a concrete level-0 record, raising the level
to 3 strictly increases the indentation of every output line. -/
theorem indented_deeper_for_higher_level_instance :
    wrecB.level = 0 ∧
    List.Forall₂ (fun a b => leadingSpaces a < leadingSpaces b)
      ((IndentedFormatter.mk ⟨false⟩).renderLinesOf wrecB)
      ((IndentedFormatter.mk ⟨false⟩).renderLinesOf
        { wrecB with level := 3 }) :=
  ⟨rfl,
    indented_deeper_for_higher_level (IndentedFormatter.mk ⟨false⟩)
      wrecB rfl⟩

/-- Claim C7: for every record, PrependedFormatter emits the record's
LABEL value as a preamble token ahead of the Brief content, the empty
string standing in when LABEL is absent; in particular a record
labelled worker-2 renders to worker-2, a separator, then the Brief
output. -/
theorem prepended_label_preamble (f : PrependedFormatter)
    (r : LogRecord) :
    f.renderText r =
      labelOf r ++ " " ++ f.toBriefFormatter.renderText r ∧
    (lastValue r.props "LABEL" = none → labelOf r = "") ∧
    (lastValue r.props "LABEL" =
        some (PropValue.vString "worker-2") →
      f.renderText r =
        "worker-2" ++ " " ++ f.toBriefFormatter.renderText r) := by
  refine ⟨rfl, ?_, ?_⟩
  · intro h
    unfold labelOf
    rw [h]
  · intro h
    unfold PrependedFormatter.renderText labelOf
    rw [h]
    rfl

/-- Claim C7 witness: a concrete record without LABEL gets the empty
preamble, and the concrete labelled record renders with the worker-2
preamble ahead of its Brief content. -/
theorem prepended_label_preamble_instance :
    lastValue wrecB.props "LABEL" = none ∧ labelOf wrecB = "" ∧
    lastValue wrecL.props "LABEL" =
      some (PropValue.vString "worker-2") ∧
    (PrependedFormatter.mk ⟨false⟩).renderText wrecL =
      "worker-2" ++ " " ++
        (PrependedFormatter.mk ⟨false⟩).toBriefFormatter.renderText
          wrecL :=
  ⟨by decide,
    (prepended_label_preamble (PrependedFormatter.mk ⟨false⟩)
      wrecB).2.1 (by decide),
    by decide,
    (prepended_label_preamble (PrependedFormatter.mk ⟨false⟩)
      wrecL).2.2 (by decide)⟩

/-- Claim C8: after setScreenVerbose true, the ScreenLog sink's
formatter writes any non-showAll record exactly as a BriefFormatter
constructed verbose does, and the sink's verbose and threshold
accessors delegate to its formatter and destination. -/
theorem screenlog_verbose_delegation (s : ScreenLog) (h : Heap)
    (r : LogRecord) (strm : Option String) (_hs : r.showAll = false) :
    (s.screenFormatter (s.setScreenVerbose true h)).write strm r =
      (BriefFormatter.mk true).write strm r ∧
    s.isScreenVerbose h = (s.screenFormatter h).isVerbose ∧
    s.getScreenThreshold h = (h.dests s._screen).getThreshold ∧
    (∀ b, (s.setScreenVerbose b h).frmtrs s._screenFrmtr =
      (h.frmtrs s._screenFrmtr).setVerbose b) ∧
    (∀ t, (s.setScreenThreshold t h).dests s._screen =
      (h.dests s._screen).setThreshold t) := by
  refine ⟨?_, rfl, rfl, ?_, ?_⟩
  · have hf : s.screenFormatter (s.setScreenVerbose true h) =
        BriefFormatter.mk true := by
      unfold ScreenLog.screenFormatter ScreenLog.setScreenVerbose
      simp [BriefFormatter.setVerbose]
    rw [hf]
  · intro b
    unfold ScreenLog.setScreenVerbose
    simp
  · intro t
    unfold ScreenLog.setScreenThreshold
    simp

/-- Claim C8 witness: on a concrete sink, heap, stream and non-showAll
record, the formatter reached after setScreenVerbose true writes the
same bytes as a verbose BriefFormatter. -/
theorem screenlog_verbose_delegation_instance :
    wrecB.showAll = false ∧
    (wsink.screenFormatter (wsink.setScreenVerbose true wheap)).write
        (some "") wrecB =
      (BriefFormatter.mk true).write (some "") wrecB :=
  ⟨rfl,
    (screenlog_verbose_delegation wsink wheap wrecB (some "") rfl).1⟩

/-- Claim C9: write mutates no formatter state, and writing the same
record through the same formatter into two different streams appends
the same bytes to each. -/
theorem write_pure_and_repeatable (fb : BriefFormatter)
    (fi : IndentedFormatter) (fn : NetLoggerFormatter)
    (fp : PrependedFormatter) (r : LogRecord) (s₁ s₂ : String) :
    ((fb.write (some s₁) r).1 = fb ∧
      (fb.write (some s₁) r).2 = some (s₁ ++ fb.renderText r) ∧
      (fb.write (some s₂) r).2 = some (s₂ ++ fb.renderText r)) ∧
    ((fi.write (some s₁) r).1 = fi ∧
      (fi.write (some s₁) r).2 = some (s₁ ++ fi.renderText r) ∧
      (fi.write (some s₂) r).2 = some (s₂ ++ fi.renderText r)) ∧
    ((fn.write (some s₁) r).1 = fn ∧
      (fn.write (some s₁) r).2 = some (s₁ ++ fn.renderText r) ∧
      (fn.write (some s₂) r).2 = some (s₂ ++ fn.renderText r)) ∧
    ((fp.write (some s₁) r).1 = fp ∧
      (fp.write (some s₁) r).2 = some (s₁ ++ fp.renderText r) ∧
      (fp.write (some s₂) r).2 = some (s₂ ++ fp.renderText r)) :=
  ⟨⟨rfl, rfl, rfl⟩, ⟨rfl, rfl, rfl⟩, ⟨rfl, rfl, rfl⟩, ⟨rfl, rfl, rfl⟩⟩

/-- Claim C10: the ScreenLog copy constructor copies the raw
destination and formatter pointers, so copy and original alias one
formatter and one destination: setScreenVerbose and
setScreenThreshold on the copy are visible through the original's
accessors, while a NetLoggerFormatter copy shares nothing and holds
its own freshly built table. -/
theorem screenlog_copy_shares_state (s : ScreenLog) (h : Heap)
    (b : Bool) (t : Int) :
    s.copy._screen = s._screen ∧
    s.copy._screenFrmtr = s._screenFrmtr ∧
    s.isScreenVerbose (s.copy.setScreenVerbose b h) = b ∧
    s.getScreenThreshold (s.copy.setScreenThreshold t h) = t ∧
    ∀ f : NetLoggerFormatter, f.copy._tplookup = loadTypeLookup := by
  refine ⟨rfl, rfl, ?_, ?_, fun _ => rfl⟩
  · unfold ScreenLog.isScreenVerbose ScreenLog.setScreenVerbose
      ScreenLog.copy
    simp [BriefFormatter.setVerbose, BriefFormatter.isVerbose]
  · unfold ScreenLog.getScreenThreshold ScreenLog.setScreenThreshold
      ScreenLog.copy
    simp [LogDestination.setThreshold, LogDestination.getThreshold]

end PexLogging
